import Mathlib

/-!
Verification development for S3BL (a second-stage bootloader with redundant
firmware slots and an HTTP recovery-upload path).

The definitions below are a shallow embedding of `src/main.cpp` together with
the constants of `include/flash.h`.  Machine integers are modelled as `Nat`
(all quantities in the source stay far below `2^32` on the inputs considered;
where a 32-bit bit operation matters it is written out explicitly).  Hardware
and filesystem side effects are modelled as explicit effect lists, and the
per-connection HTTP upload handler is modelled as a pure function over a
trace of network events.
-/

namespace S3BL

/-! ## Data model (`boot_metadata_t`, flash geometry) -/

/-- `boot_metadata_t` from `main.cpp`: five little-endian `uint32_t` fields. -/
structure BootMetadata where
  active_slot : Nat
  valid_a : Nat
  valid_b : Nat
  boot_count : Nat
  boot_success : Nat
deriving Repr, DecidableEq

/-- `SECTOR_SIZE` from `flash.h`. -/
def SECTOR_SIZE : Nat := 4096

/-- `SLOT_A_ADDRESS` from `main.cpp`. -/
def SLOT_A_ADDRESS : Nat := 0x60032000

/-- `SLOT_B_ADDRESS` from `main.cpp`. -/
def SLOT_B_ADDRESS : Nat := 0x60112000

/-- `MAX_UPLOAD_SIZE` from the upload path of `setup()`. -/
def MAX_UPLOAD_SIZE : Nat := 1024 * 1024

/-- The computation `addr & ~(SECTOR_SIZE - 1)` performed on a `uint32_t`
address at the top of `flash_write`; `~4095` in 32 bits is `0xFFFFF000`. -/
def sector_align (addr : Nat) : Nat := addr &&& 0xFFFFF000

/-! ## FlashProgrammer (`flash_erase_sector`, `flash_write` and its verify pass) -/

/-- One hardware-level flash operation issued through the FlexSPI controller. -/
inductive FlashOp where
  | eraseSector (addr : Nat)
  | programWord (addr : Nat) (value : Nat)
deriving Repr, DecidableEq

/-- `flash_erase_sector(addr)` issues a sector-erase command for the sector
holding `addr`. -/
def flash_erase_sector (addr : Nat) : FlashOp := .eraseSector addr

/-- Result of the read-back verification loop at the end of `flash_write`. -/
inductive VerifyResult where
  | ok
  | fail (index : Nat) (expected : Nat) (actual : Nat)
deriving Repr, DecidableEq

/-- The verification loop of `flash_write`: compare the read-back words
(`written[i]`) against the source words (`src[i]`) in index order, and stop at
the first mismatch, reporting its index together with both values.  The first
argument is the read-back sequence, the second the source sequence, the third
the index of the current word. -/
def verify_words : List Nat → List Nat → Nat → VerifyResult
  | w :: ws, s :: ss, i => if w = s then verify_words ws ss (i + 1) else .fail i s w
  | _, _, _ => .ok

/-- Reading `src[i]` through `(const uint32_t*)data` on the little-endian
Cortex-M7: four consecutive bytes assembled into a word. -/
def word_of_bytes (b0 b1 b2 b3 : Nat) : Nat :=
  b0 + 256 * b1 + 65536 * b2 + 16777216 * b3

/-- What one call to `flash_write(addr, data, len)` does, given the word
sequence `readback` later observed by the verification pass:
erase the single sector containing `addr & ~(SECTOR_SIZE-1)`, then program
`(len + 3) / 4` words starting at `addr`, taking the source words from the
byte buffer `data` (bytes past `data` are read as 0, mirroring the
out-of-buffer reads of the C cast being unspecified only past the enclosing
`String` buffer, which callers always extend past `len`). -/
structure FlashWriteResult where
  ops : List FlashOp
  verify : VerifyResult
deriving Repr, DecidableEq

def flash_write (addr : Nat) (data : List Nat) (len : Nat) (readback : List Nat) :
    FlashWriteResult :=
  let words := (len + 3) / 4
  let src := (List.range words).map (fun i =>
    word_of_bytes (data.getD (4 * i) 0) (data.getD (4 * i + 1) 0)
      (data.getD (4 * i + 2) 0) (data.getD (4 * i + 3) 0))
  { ops := flash_erase_sector (sector_align addr) ::
      (List.range words).map (fun i => FlashOp.programWord (addr + 4 * i) (src.getD i 0)),
    verify := verify_words (readback.take words) src 0 }

/-- Modelled from the claim's words (for comparison with the source): the base
addresses of every 4096-byte sector that the byte range `[addr, addr+len)`
overlaps. -/
def overlapped_sectors (addr len : Nat) : List Nat :=
  if len = 0 then []
  else (List.range ((addr + len - 1) / SECTOR_SIZE + 1 - addr / SECTOR_SIZE)).map
    (fun k => (addr / SECTOR_SIZE + k) * SECTOR_SIZE)

/-- Whether a flash operation is a sector erase. -/
def isErase : FlashOp → Bool
  | .eraseSector _ => true
  | .programWord _ _ => false

/-! ## VectorTableChecker and BootSelector -/

/-- The vector-table plausibility test of `setup()`: the candidate slot is
rejected when `(sp & 0x60000000) != 0x60000000 || (rv & 0x60000000) != 0x60000000`,
and accepted otherwise. -/
def vt_check (sp rv : Nat) : Bool :=
  if (sp &&& 0x60000000) ≠ 0x60000000 ∨ (rv &&& 0x60000000) ≠ 0x60000000 then false
  else true

/-- Outcome of the boot-decision chain in `setup()`: transfer control to a
slot (`jump_to_app`), print the invalid-vector-table warning and abort the
jump (after which `setup()` simply returns), or enter recovery mode. -/
inductive BootDecision where
  | jumpTo (addr : Nat)
  | abortJump (addr : Nat)
  | recovery
deriving Repr, DecidableEq

/-- The boot-decision `if`/`else if` chain of `setup()`, evaluated on the
loaded metadata and the two leading words (`sp`, `rv`) of each slot. -/
def boot_decide (m : BootMetadata) (aSp aRv bSp bRv : Nat) : BootDecision :=
  if m.active_slot = 0 ∧ m.valid_a ≠ 0 then
    if vt_check aSp aRv then .jumpTo SLOT_A_ADDRESS else .abortJump SLOT_A_ADDRESS
  else if m.active_slot = 1 ∧ m.valid_b ≠ 0 then
    if vt_check bSp bRv then .jumpTo SLOT_B_ADDRESS else .abortJump SLOT_B_ADDRESS
  else if m.valid_a ≠ 0 then
    if vt_check aSp aRv then .jumpTo SLOT_A_ADDRESS else .abortJump SLOT_A_ADDRESS
  else if m.valid_b ≠ 0 then
    if vt_check bSp bRv then .jumpTo SLOT_B_ADDRESS else .abortJump SLOT_B_ADDRESS
  else .recovery

/-- Modelled from the claim's words (for comparison with the source): the
decision order in which a candidate whose vector table fails the plausibility
check is treated exactly as if its valid flag were false and evaluation
continues to the next branch, ultimately entering Recovery. -/
def boot_decide_claim (m : BootMetadata) (aSp aRv bSp bRv : Nat) : BootDecision :=
  if m.active_slot = 0 ∧ m.valid_a ≠ 0 ∧ vt_check aSp aRv then .jumpTo SLOT_A_ADDRESS
  else if m.active_slot = 1 ∧ m.valid_b ≠ 0 ∧ vt_check bSp bRv then .jumpTo SLOT_B_ADDRESS
  else if m.valid_a ≠ 0 ∧ vt_check aSp aRv then .jumpTo SLOT_A_ADDRESS
  else if m.valid_b ≠ 0 ∧ vt_check bSp bRv then .jumpTo SLOT_B_ADDRESS
  else .recovery

/-! ## RecoveryServer: body reception

The `POST /upload` body-reading loop of `setup()` is modelled over a trace of
network events.  A `chunk d bytes` event means the peer makes `bytes`
available all at once after `d` milliseconds of silence; `close d` means the
peer disconnects after `d` milliseconds of silence.  The C loop keeps
`upload_bytes` equal to `code.length()` at all times, so the model carries
only the received byte list. -/

inductive NetEvent where
  | chunk (delay : Nat) (data : List Char)
  | close (delay : Nat)
deriving Repr, DecidableEq

/-- How the body-reading loop of `setup()` ended: the 1 MiB guard fired
(`upload_too_large`), the 10-second rolling deadline expired
(`millis() >= timeout` at the post-loop check), or the loop fell through to
the parsing stage (`done`), which happens both when `Content-Length` bytes
have arrived and when the client disconnected early. -/
inductive BodyResult where
  | tooLarge (received : List Char)
  | stalled (received : List Char)
  | done (received : List Char)
deriving Repr, DecidableEq

/-- The inner `while (client.available() && upload_bytes < content_length)`
loop: consume available bytes one at a time while fewer than `cl` bytes have
been taken; after appending a byte, if the total exceeds `MAX_UPLOAD_SIZE`
stop with the `upload_too_large` flag set.  Returns the accumulated buffer
and the flag. -/
def drain : List Char → List Char → Nat → List Char × Bool
  | [], recv, _ => (recv, false)
  | c :: rest, recv, cl =>
    if recv.length < cl then
      if MAX_UPLOAD_SIZE < (recv ++ [c]).length then (recv ++ [c], true)
      else drain rest (recv ++ [c]) cl
    else (recv, false)

/-- The outer `while (client.connected() && upload_bytes < content_length &&
millis() < timeout)` loop, followed by the post-loop classification.  `now` is
the current value of `millis()` relative to the start of body reception and
`deadline` the current value of `timeout` (initially `10000`; reset to
arrival-time + 10000 whenever a byte is consumed). -/
def read_body_go (cl : Nat) : List NetEvent → List Char → Nat → Nat → BodyResult
  | [], recv, _, _ =>
    if cl ≤ recv.length then .done recv else .stalled recv
  | e :: rest, recv, now, deadline =>
    if cl ≤ recv.length then .done recv
    else
      match e with
      | .chunk d data =>
        let t := now + d
        if deadline ≤ t then .stalled recv
        else
          let res := drain data recv cl
          if res.2 then .tooLarge res.1
          else read_body_go cl rest res.1 t
            (if recv.length < res.1.length then t + 10000 else deadline)
      | .close d =>
        if deadline ≤ now + d then .stalled recv else .done recv

/-- The complete body-reception phase: empty buffer, `millis()` rebased to 0,
`timeout = millis() + 10000`. -/
def read_body (events : List NetEvent) (content_length : Nat) : BodyResult :=
  read_body_go content_length events [] 0 10000

/-! ## MultipartExtractor

The parsing stage of the upload path works on the received `String code` with
`String::indexOf` (a `strstr`-based scan) and `String::substring`. -/

/-- Whether `pat` occurs in `s` starting exactly at position `i`. -/
def matchesAt (s pat : List Char) (i : Nat) : Bool :=
  (s.drop i).take pat.length == pat

/-- Fuel-driven scan for the first occurrence of `pat` in `s` at a position
`≥ i`; the occurrence must fit inside `s` (as with `strstr`). -/
def indexOfAux (s pat : List Char) : Nat → Nat → Option Nat
  | _, 0 => none
  | i, fuel + 1 =>
    if i + pat.length ≤ s.length then
      if matchesAt s pat i then some i else indexOfAux s pat (i + 1) fuel
    else none

/-- `code.indexOf(pat, start)`. -/
def indexOfFrom (s pat : List Char) (start : Nat) : Option Nat :=
  indexOfAux s pat start (s.length + 1 - start)

def CONTENT_TYPE_TOKEN : List Char := "Content-Type:".toList

def CRLFCRLF : List Char := ['\r', '\n', '\r', '\n']

def CRLF : List Char := ['\r', '\n']

/-- The multipart-extraction block of the upload path:
`bin_start = indexOf("\r\n\r\n", indexOf("Content-Type:")) + 4`,
`boundary = substring(0, indexOf("\r\n"))`,
`bin_end = indexOf(boundary, bin_start) - 4`, succeeding iff
`bin_start >= 0 && bin_end > bin_start`.  The `getD 0` on the boundary scan is
unreachable: the branch is only entered once `"\r\n\r\n"` was found, so a
`"\r\n"` exists.  All index arithmetic stays in `Nat`: whenever the boundary
is found at `bi`, `bi ≥ bin_start ≥ 4`, so `bi - 4` agrees with the `int`
computation of the source. -/
def extract_payload (code : List Char) : Option (Nat × Nat) :=
  match indexOfFrom code CONTENT_TYPE_TOKEN 0 with
  | none => none
  | some ci =>
    match indexOfFrom code CRLFCRLF ci with
    | none => none
    | some he =>
      let s := he + 4
      let boundary := code.take ((indexOfFrom code CRLF 0).getD 0)
      match indexOfFrom code boundary s with
      | none => none
      | some bi => if s < bi - 4 then some (s, bi - 4) else none

/-! ## RecoveryServer: commit path and per-connection outcome -/

/-- A side effect of the upload path that touches flash, the metadata store
or the reset-control register. -/
inductive Effect where
  | flash (op : FlashOp)
  | verifyReport (r : VerifyResult)
  | saveMetadata (m : BootMetadata)
  | systemReset
deriving Repr, DecidableEq

/-- The outcome of one `POST /upload` connection: the HTTP status code of the
response sent and the list of state-changing effects issued.  In every case
the source then calls `client.stop()`; the accept loop continues unless a
`systemReset` effect was issued (after which `setup()` spins forever). -/
structure UploadOutcome where
  status : Nat
  effects : List Effect
deriving Repr, DecidableEq

/-- The parse-and-commit stage of the upload path, run on the received body:
on extraction failure respond `400` with no side effects; otherwise erase the
target sector, run `flash_write` on the extracted range (its source pointer is
`code.c_str() + bin_start`, so the byte buffer passed on is the whole tail of
the body from `bin_start`), update the metadata exactly as the source does
(new slot valid and active, other slot invalidated), persist it, respond
`200`, and request exactly one system reset via `SCB_AIRCR`.  The metadata
update does not consult the verification result: `flash_write` returns
`void` and only logs a mismatch. -/
def process_body (meta : BootMetadata) (recv : List Char) (readback : List Nat) :
    UploadOutcome :=
  let target := if meta.active_slot = 0 then SLOT_B_ADDRESS else SLOT_A_ADDRESS
  match extract_payload recv with
  | none => ⟨400, []⟩
  | some (s, e) =>
    let fw := flash_write target ((recv.drop s).map Char.toNat) (e - s) readback
    let m' := if meta.active_slot = 0 then
        { meta with valid_b := 1, active_slot := 1, valid_a := 0 }
      else
        { meta with valid_a := 1, active_slot := 0, valid_b := 0 }
    ⟨200, .flash (flash_erase_sector target) :: fw.ops.map .flash ++
      [.verifyReport fw.verify, .saveMetadata m', .systemReset]⟩

/-- One full `POST /upload` connection after the headers were read:
receive the body, then classify exactly as the source does — `413` when the
size guard fired, `408` when the rolling deadline expired, and otherwise hand
the received buffer to the parse-and-commit stage. -/
def handle_upload (meta : BootMetadata) (content_length : Nat)
    (events : List NetEvent) (readback : List Nat) : UploadOutcome :=
  match read_body events content_length with
  | .tooLarge _ => ⟨413, []⟩
  | .stalled _ => ⟨408, []⟩
  | .done recv => process_body meta recv readback

/-! ## Header handling (`Content-Length` extraction) -/

/-- Whether `pat` is an initial segment of `s` (`String::startsWith`). -/
def hasLead (pat s : List Char) : Bool := s.take pat.length == pat

/-- Leading-whitespace skipping of `atol`, reached through
`String::toInt`. -/
def skipSpaces : List Char → List Char
  | c :: rest => if c = ' ' ∨ c = '\t' then skipSpaces rest else c :: rest
  | [] => []

/-- Decimal digit accumulation of `atol`. -/
def digitsToNat : List Char → Nat → Nat
  | c :: rest, acc =>
    if 48 ≤ c.toNat ∧ c.toNat ≤ 57 then digitsToNat rest (10 * acc + (c.toNat - 48))
    else acc
  | [], acc => acc

/-- `line.substring(15).toInt()` on the text after `"Content-Length:"`
(non-negative values; the upload path never produces a negative header in the
scenarios specified). -/
def toIntModel (s : List Char) : Nat := digitsToNat (skipSpaces s) 0

def CONTENT_LENGTH_TOKEN : List Char := "Content-Length:".toList

/-- The header loop of the upload path: `content_length` starts at 0 and is
overwritten by each header line starting with `"Content-Length:"`. -/
def content_length_of (headers : List (List Char)) : Nat :=
  headers.foldl
    (fun acc line =>
      if hasLead CONTENT_LENGTH_TOKEN line then toIntModel (line.drop 15) else acc)
    0

/-! ## Concrete inputs used by the witnesses and counterexamples -/

/-- The multipart body of the spec's §8 example, with payload
`ABCDEFGHIJKL` (12 bytes). -/
def exampleBody : List Char :=
  ("----X\r\nContent-Disposition: form-data; name=\"firmware\"\r\n" ++
   "Content-Type: application/octet-stream\r\n\r\nABCDEFGHIJKL\r\n----X--").toList

/-- The §8 example body delivered at once. -/
def exampleEvents : List NetEvent := [.chunk 0 exampleBody]

/-- Metadata with slot A active and valid. -/
def exampleMeta : BootMetadata := ⟨0, 1, 0, 0, 0⟩

/-! ## Helper lemmas -/

lemma verify_words_ok_iff (w : List Nat) : ∀ (s : List Nat) (k : Nat),
    w.length = s.length →
    (verify_words w s k = .ok ↔ ∀ j < w.length, w.getD j 0 = s.getD j 0) := by
  induction w with
  | nil =>
    intro s k h
    cases s with
    | nil => simp [verify_words]
    | cons b s' => simp at h
  | cons a w' ih =>
    intro s k h
    cases s with
    | nil => simp at h
    | cons b s' =>
      by_cases hab : a = b
      · simp only [verify_words, if_pos hab]
        rw [ih s' (k + 1) (by simpa using h)]
        constructor
        · intro hall j hj
          cases j with
          | zero => simpa using hab
          | succ j' => simpa using hall j' (by simpa using hj)
        · intro hall j hj
          have := hall (j + 1) (by simpa using Nat.succ_lt_succ hj)
          simpa using this
      · simp only [verify_words, if_neg hab]
        exact iff_of_false (by simp)
          (fun hall => hab (by simpa using hall 0 (Nat.succ_pos _)))

lemma verify_words_fail_first (w : List Nat) : ∀ (s : List Nat) (k i : Nat),
    w.length = s.length → i < w.length →
    (∀ j < i, w.getD j 0 = s.getD j 0) → w.getD i 0 ≠ s.getD i 0 →
    verify_words w s k = .fail (k + i) (s.getD i 0) (w.getD i 0) := by
  induction w with
  | nil =>
    intro s k i h hi hpre hmis
    exact absurd hi (by simp)
  | cons a w' ih =>
    intro s k i h hi hpre hmis
    cases s with
    | nil => simp at h
    | cons b s' =>
      cases i with
      | zero =>
        have hab : a ≠ b := by simpa using hmis
        simp [verify_words, if_neg hab]
      | succ i' =>
        have hab : a = b := by simpa using hpre 0 (Nat.succ_pos _)
        have step := ih s' (k + 1) i' (by simpa using h) (by simpa using hi)
          (fun j hj => by simpa using hpre (j + 1) (by simpa using Nat.succ_lt_succ hj))
          (by simpa using hmis)
        rw [show k + (i' + 1) = (k + 1) + i' from by omega]
        simpa [verify_words, if_pos hab] using step

lemma drain_length_le (data : List Char) : ∀ (recv : List Char) (cl : Nat),
    recv.length ≤ cl → ((drain data recv cl).1).length ≤ cl := by
  induction data with
  | nil => intro recv cl h; simpa [drain] using h
  | cons c rest ih =>
    intro recv cl h
    by_cases hlt : recv.length < cl
    · by_cases hmax : MAX_UPLOAD_SIZE < (recv ++ [c]).length
      · simp only [drain, if_pos hlt, if_pos hmax]
        simpa using hlt
      · simp only [drain, if_pos hlt, if_neg hmax]
        exact ih (recv ++ [c]) cl (by simpa using hlt)
    · simpa [drain, if_neg hlt] using h

lemma read_body_go_done_le (cl : Nat) (events : List NetEvent) :
    ∀ (recv r : List Char) (now deadline : Nat),
    recv.length ≤ cl → read_body_go cl events recv now deadline = .done r →
    r.length ≤ cl := by
  induction events with
  | nil =>
    intro recv r now deadline hle h
    by_cases hcl : cl ≤ recv.length
    · simp only [read_body_go, if_pos hcl, BodyResult.done.injEq] at h
      exact h ▸ hle
    · simp [read_body_go, if_neg hcl] at h
  | cons e rest ih =>
    intro recv r now deadline hle h
    by_cases hcl : cl ≤ recv.length
    · simp only [read_body_go, if_pos hcl, BodyResult.done.injEq] at h
      exact h ▸ hle
    · cases e with
      | chunk d data =>
        by_cases ht : deadline ≤ now + d
        · simp [read_body_go, if_neg hcl, if_pos ht] at h
        · by_cases hfl : (drain data recv cl).2
          · simp [read_body_go, if_neg hcl, if_neg ht, hfl] at h
          · simp only [read_body_go, if_neg hcl, if_neg ht, hfl, if_false,
              Bool.false_eq_true] at h
            exact ih (drain data recv cl).1 r (now + d) _
              (drain_length_le data recv cl hle) h
      | close d =>
        by_cases ht : deadline ≤ now + d
        · simp [read_body_go, if_neg hcl, if_pos ht] at h
        · simp only [read_body_go, if_neg hcl, if_neg ht, BodyResult.done.injEq] at h
          exact h ▸ hle

lemma read_body_done_le (events : List NetEvent) (cl : Nat) (r : List Char)
    (h : read_body events cl = .done r) : r.length ≤ cl :=
  read_body_go_done_le cl events [] r 0 10000 (by simp) h

lemma drain_replicate_tooLarge : ∀ (n : Nat) (recv : List Char) (cl : Nat),
    1 ≤ n → recv.length + n = MAX_UPLOAD_SIZE + 1 → MAX_UPLOAD_SIZE < cl →
    drain (List.replicate n 'a') recv cl = (recv ++ List.replicate n 'a', true) := by
  intro n
  induction n with
  | zero => intro recv cl h1; omega
  | succ m ih =>
    intro recv cl h1 hsum hcl
    have hlt : recv.length < cl := by omega
    rw [List.replicate_succ]
    by_cases hm : m = 0
    · subst hm
      simp only [List.replicate_zero, drain]
      split_ifs with hA
      · rfl
      · exfalso
        simp only [List.length_append, List.length_cons, List.length_nil] at hA
        omega
    · have hmax : ¬ MAX_UPLOAD_SIZE < (recv ++ ['a']).length := by
        simp only [List.length_append, List.length_cons, List.length_nil]
        omega
      simp only [drain]
      rw [ih (recv ++ ['a']) cl (by omega)
        (by simp only [List.length_append, List.length_cons, List.length_nil]; omega) hcl]
      have hmax2 : ¬ MAX_UPLOAD_SIZE < recv.length + 1 := by omega
      simp [hlt, hmax2]

lemma count_systemReset_flash_map (ops : List FlashOp) :
    ((ops.map Effect.flash).count Effect.systemReset) = 0 := by
  induction ops with
  | nil => simp
  | cons op rest ih => simp [List.count_cons, ih]

lemma content_length_of_absent (headers : List (List Char))
    (h : ∀ line ∈ headers, hasLead CONTENT_LENGTH_TOKEN line = false) :
    content_length_of headers = 0 := by
  unfold content_length_of
  induction headers with
  | nil => simp
  | cons line rest ih =>
    have hline := h line (by simp)
    simp only [List.foldl_cons, hline, Bool.false_eq_true, if_false]
    exact ih (fun l hl => h l (by simp [hl]))

/-! ## Claim theorems -/

/-- C8: for every candidate vector table, the plausibility check accepts the
candidate if and only if both `initial_stack_pointer` and `reset_vector`
satisfy the fixed high-bit mask test `word & 0x60000000 == 0x60000000`; a
candidate failing either word's test is rejected. -/
theorem claim8_vt_mask_iff : ∀ sp rv : Nat,
    vt_check sp rv = true ↔
      ((sp &&& 0x60000000) = 0x60000000 ∧ (rv &&& 0x60000000) = 0x60000000) := by
  intro sp rv
  simp only [vt_check]
  split_ifs with h
  · simp only [Bool.false_eq_true, false_iff]
    tauto
  · simp only [true_iff]
    push_neg at h
    tauto

/-- C9: for equally long read-back and source word sequences, the
verification pass succeeds iff every word matches; and if index `i` is the
first mismatching index, it reports failure at exactly `i` together with the
expected (source) and actual (read-back) values, and its result does not
depend on any word beyond index `i` (any read-back sequence agreeing up to
`i` yields the same report). -/
theorem claim9_verify_first_mismatch :
    ∀ (written src : List Nat), written.length = src.length →
    ((verify_words written src 0 = .ok) ↔
      ∀ j < src.length, written.getD j 0 = src.getD j 0) ∧
    (∀ i, i < src.length → (∀ j < i, written.getD j 0 = src.getD j 0) →
      written.getD i 0 ≠ src.getD i 0 →
      verify_words written src 0 = .fail i (src.getD i 0) (written.getD i 0) ∧
      (∀ written2 : List Nat, written2.length = src.length →
        (∀ j ≤ i, written2.getD j 0 = written.getD j 0) →
        verify_words written2 src 0 = .fail i (src.getD i 0) (written.getD i 0))) := by
  intro written src hlen
  constructor
  · rw [verify_words_ok_iff written src 0 hlen, hlen]
  · intro i hi hpre hmis
    constructor
    · have h := verify_words_fail_first written src 0 i hlen (by omega) hpre hmis
      simpa using h
    · intro w2 hlen2 hagree
      have hpre2 : ∀ j < i, w2.getD j 0 = src.getD j 0 := fun j hj =>
        (hagree j (le_of_lt hj)).trans (hpre j hj)
      have hmis2 : w2.getD i 0 ≠ src.getD i 0 := by
        rw [hagree i (le_refl i)]
        exact hmis
      have h := verify_words_fail_first w2 src 0 i hlen2 (by omega) hpre2 hmis2
      rw [hagree i (le_refl i)] at h
      simpa using h

/-- Witness for C9: a 3-word write whose read-back mismatches first at index
1 reports `fail 1 5 2`, and changing the word at index 2 does not change the
report. -/
theorem claim9_verify_first_mismatch_witness :
    verify_words [1, 2, 3] [1, 5, 9] 0 = .fail 1 5 2 ∧
    verify_words [1, 2, 77] [1, 5, 9] 0 = .fail 1 5 2 := by
  have h := (claim9_verify_first_mismatch [1, 2, 3] [1, 5, 9] (by decide)).2 1
    (by decide) (by decide) (by decide)
  exact ⟨h.1.trans (by decide), (h.2 [1, 2, 77] (by decide) (by decide)).trans (by decide)⟩

set_option maxRecDepth 200000 in
/-- C4, evaluated at the failing input `addr = 0x60112000` (slot B),
`len = 4100`: the address range `[addr, addr+4100)` overlaps the two sectors
`0x60112000` and `0x60113000`, and the write does program exactly
`ceil(4100/4) = 1025` words, but it erases only the single sector
`0x60112000` — the second overlapped sector is never erased, contrary to the
claim (and to §3's "must first erase every sector its address range
overlaps"). -/
theorem claim4_single_sector_erased :
    ((flash_write 0x60112000 [] 4100 []).ops.filter isErase) =
      [FlashOp.eraseSector 0x60112000] ∧
    overlapped_sectors 0x60112000 4100 = [0x60112000, 0x60113000] ∧
    ((flash_write 0x60112000 [] 4100 []).ops.countP (fun op => !(isErase op))) = 1025 := by
  refine ⟨?_, ?_, ?_⟩ <;> rfl

/-- C2, refuted at a concrete input: with metadata
`{active_slot:0, valid_a:1, valid_b:1}`, slot A's leading words `(0, 0)`
failing the plausibility check and slot B's `(0x60002000, 0x60002465)`
passing it, the claim's decision order (treat the failed candidate as if its
valid flag were false and continue) would boot slot B, but the source prints
the warning and aborts the jump to slot A: it neither continues to a later
branch nor enters recovery. -/
theorem claim2_counterexample :
    boot_decide ⟨0, 1, 1, 0, 0⟩ 0 0 0x60002000 0x60002465 =
      .abortJump SLOT_A_ADDRESS ∧
    boot_decide_claim ⟨0, 1, 1, 0, 0⟩ 0 0 0x60002000 0x60002465 =
      .jumpTo SLOT_B_ADDRESS ∧
    boot_decide ⟨0, 1, 1, 0, 0⟩ 0 0 0x60002000 0x60002465 ≠
      boot_decide_claim ⟨0, 1, 1, 0, 0⟩ 0 0 0x60002000 0x60002465 := by
  refine ⟨by decide, by decide, by decide⟩

/-- C2 as amended: the boot decision evaluates its branches in the stated
priority order on the metadata flags alone; the first branch whose flag
condition holds fixes the candidate slot, whose plausibility check then
decides between jumping to that slot and aborting the boot entirely (no fall
through to later branches); Recovery is entered exactly when both valid flags
are clear. -/
theorem claim2_amended_priority :
    ∀ (m : BootMetadata) (aSp aRv bSp bRv : Nat),
    (boot_decide m aSp aRv bSp bRv = .recovery ↔ m.valid_a = 0 ∧ m.valid_b = 0) ∧
    (m.active_slot = 0 → m.valid_a ≠ 0 →
      boot_decide m aSp aRv bSp bRv =
        (if vt_check aSp aRv then .jumpTo SLOT_A_ADDRESS
         else .abortJump SLOT_A_ADDRESS)) ∧
    (m.active_slot = 1 → m.valid_b ≠ 0 →
      boot_decide m aSp aRv bSp bRv =
        (if vt_check bSp bRv then .jumpTo SLOT_B_ADDRESS
         else .abortJump SLOT_B_ADDRESS)) ∧
    (m.active_slot ≠ 0 → ¬(m.active_slot = 1 ∧ m.valid_b ≠ 0) → m.valid_a ≠ 0 →
      boot_decide m aSp aRv bSp bRv =
        (if vt_check aSp aRv then .jumpTo SLOT_A_ADDRESS
         else .abortJump SLOT_A_ADDRESS)) ∧
    (m.valid_a = 0 → m.active_slot ≠ 1 → m.valid_b ≠ 0 →
      boot_decide m aSp aRv bSp bRv =
        (if vt_check bSp bRv then .jumpTo SLOT_B_ADDRESS
         else .abortJump SLOT_B_ADDRESS)) := by
  intro m aSp aRv bSp bRv
  refine ⟨?_, ?_, ?_, ?_, ?_⟩
  · simp only [boot_decide]
    split_ifs <;> simp_all
  · intro h0 hva
    simp only [boot_decide]
    rw [if_pos (show m.active_slot = 0 ∧ m.valid_a ≠ 0 from ⟨h0, hva⟩)]
  · intro h1 hvb
    have hc1 : ¬(m.active_slot = 0 ∧ m.valid_a ≠ 0) := by
      intro hc
      rw [h1] at hc
      exact absurd hc.1 (by norm_num)
    simp only [boot_decide]
    rw [if_neg hc1, if_pos (show m.active_slot = 1 ∧ m.valid_b ≠ 0 from ⟨h1, hvb⟩)]
  · intro ha0 hnc2 hva
    have hc1 : ¬(m.active_slot = 0 ∧ m.valid_a ≠ 0) := fun hc => ha0 hc.1
    simp only [boot_decide]
    rw [if_neg hc1, if_neg hnc2, if_pos hva]
  · intro hva0 hs1 hvb
    have hc1 : ¬(m.active_slot = 0 ∧ m.valid_a ≠ 0) := fun hc => hc.2 hva0
    have hc2 : ¬(m.active_slot = 1 ∧ m.valid_b ≠ 0) := fun hc => hs1 hc.1
    have hc3 : ¬(m.valid_a ≠ 0) := fun h => h hva0
    simp only [boot_decide]
    rw [if_neg hc1, if_neg hc2, if_neg hc3, if_pos hvb]

/-- Witness for the amended C2: one concrete scenario per branch of the
decision chain, including the recovery case with both flags clear. -/
theorem claim2_amended_priority_witness :
    boot_decide ⟨0, 0, 0, 0, 0⟩ 0 0 0 0 = .recovery ∧
    boot_decide ⟨0, 1, 0, 0, 0⟩ 0x60001000 0x60001231 0 0 = .jumpTo SLOT_A_ADDRESS ∧
    boot_decide ⟨1, 1, 1, 0, 0⟩ 0 0 0x60001000 0x60001231 = .jumpTo SLOT_B_ADDRESS ∧
    boot_decide ⟨7, 1, 1, 0, 0⟩ 0x60001000 0x60001231 0 0 = .jumpTo SLOT_A_ADDRESS ∧
    boot_decide ⟨0, 0, 1, 0, 0⟩ 0 0 0x60001000 0x60001231 = .jumpTo SLOT_B_ADDRESS := by
  refine ⟨?_, ?_, ?_, ?_, ?_⟩
  · exact (claim2_amended_priority ⟨0, 0, 0, 0, 0⟩ 0 0 0 0).1.mpr (by decide)
  · exact ((claim2_amended_priority ⟨0, 1, 0, 0, 0⟩ 0x60001000 0x60001231 0 0).2.1
      rfl (by decide)).trans (by decide)
  · exact ((claim2_amended_priority ⟨1, 1, 1, 0, 0⟩ 0 0 0x60001000 0x60001231).2.2.1
      rfl (by decide)).trans (by decide)
  · exact ((claim2_amended_priority ⟨7, 1, 1, 0, 0⟩ 0x60001000 0x60001231 0 0).2.2.2.1
      (by decide) (by decide) (by decide)).trans (by decide)
  · exact ((claim2_amended_priority ⟨0, 0, 1, 0, 0⟩ 0 0 0x60001000 0x60001231).2.2.2.2
      rfl (by decide) (by decide)).trans (by decide)

set_option maxRecDepth 400000 in
/-- C1, evaluated at the failing input: the §8 example upload (119-byte
body, extracted payload range `[98, 108)`) with post-write read-back words
`[0, 0, 0]`, mismatching the source already at word 0.  The verification pass
reports the mismatch (`verifyReport (fail 0 0x44434241 0)`), yet the handler
still persists the flipped metadata record `{active_slot:1, valid_a:0,
valid_b:1}` and requests the system reset — the claim (and the spec's
required behaviour) says the record must not be updated or persisted. -/
theorem claim1_metadata_persisted_despite_mismatch :
    handle_upload exampleMeta 119 exampleEvents [0, 0, 0] =
      ⟨200, [.flash (.eraseSector SLOT_B_ADDRESS),
        .flash (.eraseSector SLOT_B_ADDRESS),
        .flash (.programWord 0x60112000 1145258561),
        .flash (.programWord 0x60112004 1212630597),
        .flash (.programWord 0x60112008 1280002633),
        .verifyReport (.fail 0 1145258561 0),
        .saveMetadata ⟨1, 0, 1, 0, 0⟩, .systemReset]⟩ := by
  rfl

set_option maxRecDepth 400000 in
/-- C5, evaluated at the §8 example body with payload `ABCDEFGHIJKL`
(12 bytes): extraction returns the range `[98, 108)` where `98` is indeed
the first byte after the first `\r\n\r\n` following `Content-Type:` and
`108` is the boundary occurrence (at 112) minus 4 — but the payload occupies
`[98, 110)`, so the extracted range is the payload with its final two bytes
cut off, not "exactly the payload bytes": only the two CRLF bytes separate
the payload from the boundary, yet the source subtracts 4. -/
theorem claim5_extraction_truncates_payload :
    extract_payload exampleBody = some (98, 108) ∧
    indexOfFrom exampleBody (exampleBody.take 5) 98 = some 112 ∧
    (exampleBody.drop 98).take (108 - 98) = "ABCDEFGHIJ".toList ∧
    (exampleBody.drop 98).take 12 = "ABCDEFGHIJKL".toList ∧
    "ABCDEFGHIJ".toList ≠ "ABCDEFGHIJKL".toList := by
  refine ⟨rfl, rfl, rfl, rfl, by decide⟩

/-- C3: whenever the body phase hands a received buffer to the parser and
extraction succeeds, the handler targets the slot that was not active
(`active_slot == 0` targets B, else A), persists the metadata with
`active_slot` flipped to the target, the target's valid flag set and the
other slot's flag cleared (counters untouched), and issues exactly one
system reset request. -/
theorem claim3_commit_flips_metadata :
    ∀ (meta : BootMetadata) (cl : Nat) (events : List NetEvent)
      (readback : List Nat) (recv : List Char) (s e : Nat),
    read_body events cl = .done recv →
    extract_payload recv = some (s, e) →
    handle_upload meta cl events readback =
      ⟨200, .flash (flash_erase_sector
          (if meta.active_slot = 0 then SLOT_B_ADDRESS else SLOT_A_ADDRESS)) ::
        (flash_write (if meta.active_slot = 0 then SLOT_B_ADDRESS else SLOT_A_ADDRESS)
            ((recv.drop s).map Char.toNat) (e - s) readback).ops.map .flash ++
        [.verifyReport (flash_write
            (if meta.active_slot = 0 then SLOT_B_ADDRESS else SLOT_A_ADDRESS)
            ((recv.drop s).map Char.toNat) (e - s) readback).verify,
         .saveMetadata (if meta.active_slot = 0 then
             ⟨1, 0, 1, meta.boot_count, meta.boot_success⟩
           else ⟨0, 1, 0, meta.boot_count, meta.boot_success⟩),
         .systemReset]⟩ ∧
    ((handle_upload meta cl events readback).effects.count .systemReset) = 1 := by
  intro meta cl events readback recv s e hdone hex
  have hproc : handle_upload meta cl events readback = process_body meta recv readback := by
    simp only [handle_upload, hdone]
  have hbody : process_body meta recv readback =
      ⟨200, .flash (flash_erase_sector
          (if meta.active_slot = 0 then SLOT_B_ADDRESS else SLOT_A_ADDRESS)) ::
        (flash_write (if meta.active_slot = 0 then SLOT_B_ADDRESS else SLOT_A_ADDRESS)
            ((recv.drop s).map Char.toNat) (e - s) readback).ops.map .flash ++
        [.verifyReport (flash_write
            (if meta.active_slot = 0 then SLOT_B_ADDRESS else SLOT_A_ADDRESS)
            ((recv.drop s).map Char.toNat) (e - s) readback).verify,
         .saveMetadata (if meta.active_slot = 0 then
             ⟨1, 0, 1, meta.boot_count, meta.boot_success⟩
           else ⟨0, 1, 0, meta.boot_count, meta.boot_success⟩),
         .systemReset]⟩ := by
    simp only [process_body, hex]
  refine ⟨hproc.trans hbody, ?_⟩
  rw [hproc, hbody]
  simp [List.count_cons, List.count_append, count_systemReset_flash_map]

set_option maxRecDepth 400000 in
/-- Witness for C3: the §8 example upload with a matching read-back
(`verifyReport ok`), starting from `{active_slot:0, valid_a:1}`: the commit
targets slot B and persists `{active_slot:1, valid_a:0, valid_b:1}` with one
reset request. -/
theorem claim3_commit_flips_metadata_witness :
    handle_upload exampleMeta 119 exampleEvents [1145258561, 1212630597, 1280002633] =
      ⟨200, [.flash (.eraseSector SLOT_B_ADDRESS),
        .flash (.eraseSector SLOT_B_ADDRESS),
        .flash (.programWord 0x60112000 1145258561),
        .flash (.programWord 0x60112004 1212630597),
        .flash (.programWord 0x60112008 1280002633),
        .verifyReport .ok,
        .saveMetadata ⟨1, 0, 1, 0, 0⟩, .systemReset]⟩ ∧
    ((handle_upload exampleMeta 119 exampleEvents
        [1145258561, 1212630597, 1280002633]).effects.count .systemReset) = 1 := by
  have h := claim3_commit_flips_metadata exampleMeta 119 exampleEvents
    [1145258561, 1212630597, 1280002633] exampleBody 98 108 rfl rfl
  exact ⟨h.1.trans (by rfl), h.2⟩

set_option maxRecDepth 400000 in
/-- C6, refuted at a concrete input: with `Content-Length` 200, the client
delivers only the 119-byte §8 example body and then disconnects; no stall
and no size overflow occur, yet the body loop ends with the partial
(119-byte) buffer, which is then parsed and written to flash. -/
theorem claim6_counterexample :
    read_body [.chunk 0 exampleBody, .close 0] 200 = .done exampleBody ∧
    exampleBody.length = 119 ∧
    handle_upload exampleMeta 200 [.chunk 0 exampleBody, .close 0] [0, 0, 0] =
      ⟨200, [.flash (.eraseSector SLOT_B_ADDRESS),
        .flash (.eraseSector SLOT_B_ADDRESS),
        .flash (.programWord 0x60112000 1145258561),
        .flash (.programWord 0x60112004 1212630597),
        .flash (.programWord 0x60112008 1280002633),
        .verifyReport (.fail 0 1145258561 0),
        .saveMetadata ⟨1, 0, 1, 0, 0⟩, .systemReset]⟩ := by
  refine ⟨rfl, rfl, rfl⟩

/-- C6 as amended: Extract and Flash are reached exactly when the body loop
ends in `done`, which happens either once `Content-Length` bytes have been
received or earlier if the peer disconnects (without stall or size abort);
the received buffer never exceeds `Content-Length` bytes, but on an early
disconnect the partial body is handed to the parser and, if extraction
succeeds, written to flash. -/
theorem claim6_amended_partial_body :
    ∀ (meta : BootMetadata) (cl : Nat) (events : List NetEvent)
      (readback : List Nat) (recv : List Char),
    read_body events cl = .done recv →
    recv.length ≤ cl ∧
    handle_upload meta cl events readback = process_body meta recv readback := by
  intro meta cl events readback recv h
  exact ⟨read_body_done_le events cl recv h, by simp only [handle_upload, h]⟩

set_option maxRecDepth 400000 in
/-- Witness for the amended C6: the complete §8 example upload reaches the
parse-and-commit stage with the full 119-byte body. -/
theorem claim6_amended_partial_body_witness :
    exampleBody.length ≤ 119 ∧
    handle_upload exampleMeta 119 exampleEvents [0, 0, 0] =
      process_body exampleMeta exampleBody [0, 0, 0] :=
  claim6_amended_partial_body exampleMeta 119 exampleEvents [0, 0, 0] exampleBody rfl

/-- C7: for every upload connection, each protocol-layer error is answered
with its matching HTTP status and produces no flash, metadata or reset
effects (so the accept loop continues): `413` when the 1 MiB guard fired,
`408` when the 10-second rolling deadline expired, `400` when the received
body cannot be parsed as a multipart payload. -/
theorem claim7_protocol_errors_no_side_effects :
    ∀ (meta : BootMetadata) (cl : Nat) (events : List NetEvent) (readback : List Nat),
    (∀ recv, read_body events cl = .tooLarge recv →
      handle_upload meta cl events readback = ⟨413, []⟩) ∧
    (∀ recv, read_body events cl = .stalled recv →
      handle_upload meta cl events readback = ⟨408, []⟩) ∧
    (∀ recv, read_body events cl = .done recv → extract_payload recv = none →
      handle_upload meta cl events readback = ⟨400, []⟩) := by
  intro meta cl events readback
  refine ⟨?_, ?_, ?_⟩
  · intro recv h
    simp only [handle_upload, h]
  · intro recv h
    simp only [handle_upload, h]
  · intro recv h hex
    simp only [handle_upload, h, process_body, hex]

/-- A trace delivering `MAX_UPLOAD_SIZE + 1` bytes at once trips the size
guard. -/
lemma read_body_bigChunk :
    read_body [.chunk 0 (List.replicate (MAX_UPLOAD_SIZE + 1) 'a')] 2000000 =
      .tooLarge (List.replicate (MAX_UPLOAD_SIZE + 1) 'a') := by
  have hd := drain_replicate_tooLarge (MAX_UPLOAD_SIZE + 1) [] 2000000 (by norm_num)
    (by simp) (by norm_num [MAX_UPLOAD_SIZE])
  simp only [read_body, read_body_go, hd]
  norm_num

/-- Witness for C7: a 1 MiB + 1 upload yields `413`, a 20-second silence
yields `408`, and an empty unparsable body yields `400`, each with an empty
effect list. -/
theorem claim7_protocol_errors_witness :
    handle_upload exampleMeta 2000000
      [.chunk 0 (List.replicate (MAX_UPLOAD_SIZE + 1) 'a')] [] = ⟨413, []⟩ ∧
    handle_upload exampleMeta 5 [.chunk 20000 ['a']] [] = ⟨408, []⟩ ∧
    handle_upload exampleMeta 0 [] [] = ⟨400, []⟩ := by
  refine ⟨?_, ?_, ?_⟩
  · exact (claim7_protocol_errors_no_side_effects exampleMeta 2000000
      [.chunk 0 (List.replicate (MAX_UPLOAD_SIZE + 1) 'a')] []).1 _ read_body_bigChunk
  · exact (claim7_protocol_errors_no_side_effects exampleMeta 5
      [.chunk 20000 ['a']] []).2.1 [] rfl
  · exact (claim7_protocol_errors_no_side_effects exampleMeta 0 [] []).2.2 [] rfl rfl

/-- C10: a `POST /upload` request whose headers contain no `Content-Length`
line leaves `content_length` at 0, so the body loop receives nothing,
multipart extraction fails on the empty buffer, and the handler responds
`400` with no flash or metadata side effects. -/
theorem claim10_missing_content_length :
    ∀ (headers : List (List Char)) (meta : BootMetadata) (events : List NetEvent)
      (readback : List Nat),
    (∀ line ∈ headers, hasLead CONTENT_LENGTH_TOKEN line = false) →
    content_length_of headers = 0 ∧
    read_body events 0 = .done [] ∧
    extract_payload ([] : List Char) = none ∧
    handle_upload meta 0 events readback = ⟨400, []⟩ := by
  intro headers meta events readback h
  have hcl := content_length_of_absent headers h
  have hrb : read_body events 0 = .done [] := by
    cases events with
    | nil => rfl
    | cons e rest => simp [read_body, read_body_go]
  refine ⟨hcl, hrb, rfl, ?_⟩
  simp only [handle_upload, hrb]
  rfl

/-- Witness for C10: a header list with only a `Host:` line. -/
theorem claim10_missing_content_length_witness :
    content_length_of ["Host: device".toList] = 0 ∧
    read_body [] 0 = .done [] ∧
    extract_payload ([] : List Char) = none ∧
    handle_upload exampleMeta 0 [] [] = ⟨400, []⟩ :=
  claim10_missing_content_length ["Host: device".toList] exampleMeta [] []
    (by decide)

end S3BL
